import Mathlib

/-!
Verification development for the telegram_dex_bot repository.

The Python sources under src/telegram_dex_bot are shallowly embedded as
executable Lean definitions: result dictionaries become structures or
inductive results, exceptions become Except, the SQLite users table becomes
a function from user ids to optional rows, and the chat handlers are sliced
to their database effects and trade-engine calls.

The nadfun_sdk package (Trade, Token, calculate_slippage, parseMon,
check_and_approve, the SDK wait_for_transaction) is imported by the bot but
its implementation is not part of the sources; those pieces are modelled
from the specification document, and each such definition is marked
"Modelled from the spec:" in its doc comment.  External libraries
(cryptography.fernet, eth_account) are modelled symbolically at their
boundary.
-/

/-- Decidable equality for Except, used by the derived instances below. -/
instance exceptDecEq {α β : Type} [DecidableEq α] [DecidableEq β] :
    DecidableEq (Except α β) := fun a b =>
  match a, b with
  | .error x, .error y =>
      if h : x = y then .isTrue (congrArg Except.error h)
      else .isFalse (fun hc => h (Except.error.inj hc))
  | .error _, .ok _ => .isFalse (fun hc => Except.noConfusion hc)
  | .ok _, .error _ => .isFalse (fun hc => Except.noConfusion hc)
  | .ok x, .ok y =>
      if h : x = y then .isTrue (congrArg Except.ok h)
      else .isFalse (fun hc => h (Except.ok.inj hc))

/-- Error raised by the slippage bound computation (spec error taxonomy). -/
inductive TradeErr where
  | invalidSlippage
  deriving DecidableEq, Repr

/-- Modelled from the spec: the nadfun_sdk function calculate_slippage
(the spec's SlippageGuard.computeMinOut) is not included under the sources;
per the spec it validates slippagePercent in the interval [0.1, 50], fails
with InvalidSlippage outside it, and otherwise returns
floor(expectedOut * (100 - slippagePercent) / 100), never rounding up. -/
def computeMinOut (expectedOut : Nat) (slippagePercent : ℚ) : Except TradeErr Nat :=
  if slippagePercent < 1/10 ∨ 50 < slippagePercent then
    .error .invalidSlippage
  else
    .ok (Int.toNat ⌊(expectedOut : ℚ) * (100 - slippagePercent) / 100⌋)

/-- Symbolic model of the external cryptography library (Fernet): a
well-formed token records the key it was produced under and the plaintext
bytes; any other byte string is a malformed ciphertext.  Decryption under
key k succeeds exactly on a well-formed token produced under k, which
models the authenticated (HMAC-checked) decryption of Fernet. -/
inductive FernetCiphertext where
  | token (keyId : Nat) (payload : List Nat)
  | malformed (raw : List Nat)
  deriving DecidableEq, Repr

/-- Symbolic Fernet encryption under key k. -/
def fernetEncrypt (k : Nat) (m : List Nat) : FernetCiphertext :=
  .token k m

/-- Symbolic Fernet decryption: returns the payload only when the token is
well formed and authenticated under k, none otherwise. -/
def fernetDecrypt (k : Nat) (c : FernetCiphertext) : Option (List Nat) :=
  match c with
  | .token k2 m => if k2 = k then some m else none
  | .malformed _ => none

/-- Key a ciphertext was produced under, if it is a well-formed token. -/
def fernetKeyOf : FernetCiphertext → Option Nat
  | .token k _ => some k
  | .malformed _ => none

/-- Error raised by WalletManager.decrypt_private_key (spec DecryptionError). -/
inductive VaultErr where
  | decryptionError
  deriving DecidableEq, Repr

/-- Embedding of wallet_manager.WalletManager: its only state is the
encryption key fixed in the constructor (the Fernet object is a pure
function of that key). -/
structure WalletManager where
  encryption_key : Nat
  deriving DecidableEq, Repr

/-- WalletManager.__init__: uses the supplied encryption key when one is
given, otherwise the key freshly generated (Fernet.generate_key) at
construction time, passed here explicitly as generatedKey. -/
def WalletManager.init (suppliedKey : Option Nat) (generatedKey : Nat) : WalletManager :=
  { encryption_key := suppliedKey.getD generatedKey }

/-- WalletManager.encrypt_private_key: encodes the secret to bytes and
encrypts it with the construction-time Fernet key (plaintexts are modelled
directly as byte lists; str.encode/decode is an injective round trip). -/
def WalletManager.encrypt_private_key (w : WalletManager) (privateKey : List Nat) :
    FernetCiphertext :=
  fernetEncrypt w.encryption_key privateKey

/-- WalletManager.decrypt_private_key: decrypts with the construction-time
Fernet key; a Fernet authentication failure is re-raised, which the spec
names DecryptionError. -/
def WalletManager.decrypt_private_key (w : WalletManager) (c : FernetCiphertext) :
    Except VaultErr (List Nat) :=
  match fernetDecrypt w.encryption_key c with
  | some m => .ok m
  | none => .error .decryptionError

/-- One KeyVault call: an encryption of a message or a decryption of a
ciphertext. -/
inductive VaultOp where
  | enc (msg : List Nat)
  | dec (c : FernetCiphertext)
  deriving DecidableEq, Repr

/-- Observable outcome of one KeyVault call. -/
inductive VaultOut where
  | cipher (c : FernetCiphertext)
  | plain (r : Except VaultErr (List Nat))
  deriving DecidableEq, Repr

/-- One step of the vault: the Python methods read self.fernet and assign
nothing, so the manager state is returned unchanged. -/
def vaultStep (w : WalletManager) : VaultOp → VaultOut × WalletManager
  | .enc m => (.cipher (w.encrypt_private_key m), w)
  | .dec c => (.plain (w.decrypt_private_key c), w)

/-- Running a sequence of KeyVault calls, threading the manager state. -/
def vaultRun (w : WalletManager) : List VaultOp → List VaultOut × WalletManager
  | [] => ([], w)
  | op :: ops =>
      let step := vaultStep w op
      let rest := vaultRun step.2 ops
      (step.1 :: rest.1, rest.2)

/-- TelegramDEXBot.__init__ (telegram_bot.py line 43) constructs the single
process-wide WalletManager() without passing a key, so the key generated at
construction becomes the process-wide key. -/
def botWalletManager (generatedKey : Nat) : WalletManager :=
  WalletManager.init none generatedKey

/-- Characters accepted as hexadecimal digits. -/
def hexDigits : List Char := "0123456789abcdefABCDEF".toList

/-- Whether one character is a hexadecimal digit. -/
def isHexChar (c : Char) : Bool := hexDigits.contains c

/-- The 0x-strip at the top of import_wallet_from_private_key: drop the
first two characters exactly when they are the two characters 0 and x. -/
def strip0x : List Char → List Char
  | '0' :: 'x' :: rest => rest
  | s => s

/-- Failure of wallet import (spec InvalidKeyFormat). -/
inductive KeyErr where
  | invalidKeyFormat
  deriving DecidableEq, Repr

/-- Symbolic boundary model of the external eth_account library: from_key
accepts a 64-character hexadecimal secret and derives its public address
through the abstract derivation function derive (the same derivation that
backs Account.create); any other input raises, which the spec names
InvalidKeyFormat. -/
def accountFromKey (derive : List Char → Nat) (s : List Char) : Except KeyErr Nat :=
  if s.length == 64 && s.all isHexChar then .ok (derive s)
  else .error .invalidKeyFormat

/-- The fields of the wallet dictionary relevant here. -/
structure ImportedWallet where
  address : Nat
  encrypted_private_key : FernetCiphertext
  deriving DecidableEq, Repr

/-- Embedding of WalletManager.import_wallet_from_private_key: strip an
optional 0x, raise on length other than 64, then derive the address via the
eth_account boundary and encrypt the cleaned secret; every raised exception
surfaces as the failure result. -/
def import_wallet_from_private_key (derive : List Char → Nat) (w : WalletManager)
    (private_key : List Char) : Except KeyErr ImportedWallet :=
  let pk := strip0x private_key
  if pk.length ≠ 64 then .error .invalidKeyFormat
  else
    match accountFromKey derive pk with
    | .error e => .error e
    | .ok addr => .ok { address := addr
                        encrypted_private_key := w.encrypt_private_key (pk.map Char.toNat) }

/-- Embedding of WalletManager.create_wallet: Account.create draws a random
secret (passed here explicitly) and the address is derived from it by the
same eth_account derivation used by import. -/
def create_wallet (derive : List Char → Nat) (w : WalletManager) (secret : List Char) :
    ImportedWallet :=
  { address := derive secret
    encrypted_private_key := w.encrypt_private_key (secret.map Char.toNat) }

/-- The 64-character test secret from the spec scenario. -/
def aSecret64 : List Char := List.replicate 64 'a'

/-- Row of the users table: columns beyond the key that create_user leaves
to their defaults are default_wallet_id, password and settings. -/
structure UserRow where
  username : Option String
  first_name : Option String
  last_name : Option String
  default_wallet_id : Option Nat
  password : Option String
  settings : String
  deriving DecidableEq, Repr

/-- Column default of users.settings. -/
def usersSettingsDefault : String := "\x7b\x7d"

/-- Embedding of DatabaseManager.create_user: INSERT OR REPLACE writes a
whole fresh row for user_id, so every column not in the column list falls
back to its declared default (NULL for default_wallet_id and password). -/
def create_user (db : Nat → Option UserRow) (user_id : Nat)
    (username first_name last_name : Option String) : Nat → Option UserRow :=
  fun u =>
    if u = user_id then
      some { username := username
             first_name := first_name
             last_name := last_name
             default_wallet_id := none
             password := none
             settings := usersSettingsDefault }
    else db u

/-- Embedding of DatabaseManager.set_user_password: an UPDATE with a
WHERE user_id clause, hence a no-op when no row exists for that user. -/
def set_user_password (db : Nat → Option UserRow) (user_id : Nat) (password : String) :
    Nat → Option UserRow :=
  fun u =>
    if u = user_id then
      match db user_id with
      | some r => some { r with password := some password }
      | none => none
    else db u

/-- Observable outcome of a password-input event: either the private keys
are shown (show_private_keys is invoked) or the incorrect-password reply is
sent. -/
inductive RevealOutcome where
  | revealed
  | mismatch
  deriving DecidableEq, Repr

/-- Embedding of TelegramDEXBot.process_password: read the stored password
(none both when the row lacks a password and when the user has no row); if
none, store the supplied value and reveal; on exact match reveal; otherwise
reply incorrect without revealing. -/
def process_password (db : Nat → Option UserRow) (user_id : Nat) (password : String) :
    (Nat → Option UserRow) × RevealOutcome :=
  let stored : Option String :=
    match db user_id with
    | some r => r.password
    | none => none
  match stored with
  | none => (set_user_password db user_id password, .revealed)
  | some sp => if sp = password then (db, .revealed) else (db, .mismatch)

/-- Database effect of TelegramDEXBot.cmd_start: it unconditionally calls
create_user for the sender (its remaining work only reads). -/
def cmd_start_dbEffect (db : Nat → Option UserRow) (user_id : Nat)
    (username first_name last_name : Option String) : Nat → Option UserRow :=
  create_user db user_id username first_name last_name

/-- Whether the pattern is a leading segment of the list. -/
def startsWithList : List Char → List Char → Bool
  | [], _ => true
  | _ :: _, [] => false
  | p :: ps, c :: cs => p == c && startsWithList ps cs

/-- Whether the pattern occurs as a contiguous run of the list (the Python
operator in on strings). -/
def hasSub (pat : List Char) : List Char → Bool
  | [] => pat.isEmpty
  | c :: cs => startsWithList pat (c :: cs) || hasSub pat cs

/-- First marker get_token_price looks for in a quote exception message. -/
def markerBondingCurve : List Char := "BONDING_CURVE".toList

/-- Second marker get_token_price looks for in a quote exception message. -/
def markerInvalidInputs : List Char := "INVALID_INPUTS".toList

/-- The classifying test of get_token_price on the message of a failed
quote: a bonding-curve rejection is recognised by either marker. -/
def isCurveRejectMsg (m : List Char) : Bool :=
  hasSub markerBondingCurve m || hasSub markerInvalidInputs m

/-- Quote value returned by the chain client: expected output amount and
the routing venue. -/
structure QuoteV where
  amount : Nat
  router : Nat
  deriving DecidableEq, Repr

/-- Outcome of the chain-client call get_amount_out: a quote, or a raised
exception carrying a message. -/
inductive QuoteOutcome where
  | ok (q : QuoteV)
  | err (msg : List Char)
  deriving DecidableEq, Repr

/-- Result dictionary of get_token_price: success, the failure carrying
error_type not_nadfun_token (the spec's NoLiquidity class), or the generic
failure without an error_type (the spec's ChainError class). -/
inductive PriceResult where
  | success (amount_out : Nat) (router : Nat)
  | noLiquidity (errMsg : List Char)
  | chainError (errMsg : List Char)
  deriving DecidableEq, Repr

/-- Embedding of TradeEngine.get_token_price: a successful quote becomes
the success dictionary; a quote exception whose message mentions
BONDING_CURVE or INVALID_INPUTS becomes the not_nadfun_token failure; any
other exception is re-raised into the outer handler, which produces the
generic failure dictionary. -/
def get_token_price (resp : QuoteOutcome) : PriceResult :=
  match resp with
  | .ok q => .success q.amount q.router
  | .err m => if isCurveRejectMsg m then .noLiquidity m else .chainError m

/-- Transaction receipt as consumed by the waiters. -/
structure Receipt where
  status : Nat
  gasUsed : Nat
  blockNumber : Nat
  deriving DecidableEq, Repr

/-- Failure of the confirmation wait (spec ConfirmationTimeout). -/
inductive WaitErr where
  | confirmationTimeout
  deriving DecidableEq, Repr

/-- Modelled from the spec: the polling loop of the nadfun_sdk
wait_for_transaction is not under the sources; per the spec it repeatedly
queries the chain client for a receipt at a bounded interval until a
receipt is returned or the timeout elapses, then fails with
ConfirmationTimeout.  Polls are modelled one per second of timeout, with
chain i the receipt available at the i-th poll. -/
def sdkWaitLoop (chain : Nat → Option Receipt) : Nat → Nat → Except WaitErr Receipt
  | _, 0 => .error .confirmationTimeout
  | i, Nat.succ fuel =>
      match chain i with
      | some r => .ok r
      | none => sdkWaitLoop chain (i + 1) fuel

/-- Modelled from the spec: the SDK wait entry point polls from the start
until the timeout elapses. -/
def sdk_wait_for_transaction (chain : Nat → Option Receipt) (timeout : Nat) :
    Except WaitErr Receipt :=
  sdkWaitLoop chain 0 timeout

/-- Default value of the timeout parameter of
TradeEngine.wait_for_transaction in trade_engine.py (the source says 60). -/
def tradeEngineWaitDefaultTimeout : Nat := 60

/-- Result dictionary of TradeEngine.wait_for_transaction. -/
inductive EngineWaitResult where
  | ok (status gasUsed blockNumber : Nat)
  | failed (e : WaitErr)
  deriving DecidableEq, Repr

/-- Embedding of TradeEngine.wait_for_transaction: delegates to the SDK
wait with its timeout argument, defaulting to 60 when the caller supplies
none; a timeout exception surfaces as the failure dictionary. -/
def TradeEngine_wait_for_transaction (chain : Nat → Option Receipt)
    (timeout : Option Nat) : EngineWaitResult :=
  let t := timeout.getD tradeEngineWaitDefaultTimeout
  match sdk_wait_for_transaction chain t with
  | .ok r => .ok r.status r.gasUsed r.blockNumber
  | .error e => .failed e

/-- Embedding of config.settings.BotSettings with its declared defaults. -/
structure BotSettings where
  default_slippage : ℚ
  default_gas_limit : Nat
  max_slippage : ℚ
  min_slippage : ℚ
  tx_timeout : Nat
  deriving DecidableEq

/-- The default BotSettings values from settings.py. -/
def botSettingsDefault : BotSettings :=
  { default_slippage := 5
    default_gas_limit := 500000
    max_slippage := 50
    min_slippage := 1/10
    tx_timeout := 300 }

/-- Environment a sell trade runs against: the chain-client answers that
execute_sell_trade consumes, in the order it consumes them.  Transaction
hashes and exception payloads are numbers. -/
structure SellEnv where
  balance : Nat
  quoteRes : Except Nat QuoteV
  allowance : Nat
  approveSubmitRes : Except Nat Nat
  approvalWaitRes : Except WaitErr Receipt
  sellSubmitRes : Except Nat Nat
  deriving DecidableEq, Repr

/-- Chain-facing events of one execute_sell_trade run, in order. -/
inductive SellEv where
  | balanceChecked (b : Nat)
  | quoteRequested
  | approveSubmitted (txHash : Nat)
  | approvalWaited (res : Except WaitErr Receipt)
  | sellSubmitted (txHash : Nat)
  deriving DecidableEq, Repr

/-- Result dictionary of execute_sell_trade: the success dictionary keeps
the swap hash, quote amount, slippage bound, router and the optional
approval hash; every caught exception becomes the failure dictionary. -/
inductive SellResult where
  | ok (tx_hash expected_out min_amount_out router : Nat) (approval_tx : Option Nat)
  | failed
  deriving DecidableEq, Repr

/-- Modelled from the spec: nadfun_sdk Token.check_and_approve is not under
the sources; per the spec the approval branch is taken only if the current
on-chain allowance for the router is less than amountIn, in which case an
approval transaction is submitted and its hash returned, and otherwise no
approval call is made.  A failed submission raises. -/
def check_and_approve (allowance amountIn : Nat) (submitRes : Except Nat Nat) :
    Except Nat (Option Nat) × List SellEv :=
  if allowance < amountIn then
    match submitRes with
    | .ok h => (.ok (some h), [.approveSubmitted h])
    | .error e => (.error e, [])
  else (.ok none, [])

/-- Embedding of TradeEngine.execute_sell_trade: balance check, quote,
slippage bound, check-and-approve, await the approval confirmation when an
approval was submitted (the returned receipt is not inspected), then submit
the sell.  Every raised exception is caught and becomes the failure
result, leaving the events that already happened in place. -/
def execute_sell_trade (env : SellEnv) (amount_to_sell : Nat) (slippage : ℚ) :
    SellResult × List SellEv :=
  if env.balance = 0 then (.failed, [.balanceChecked env.balance])
  else
    let evs0 : List SellEv := [.balanceChecked env.balance, .quoteRequested]
    match env.quoteRes with
    | .error _ => (.failed, evs0)
    | .ok q =>
      match computeMinOut q.amount slippage with
      | .error _ => (.failed, evs0)
      | .ok min_mon =>
        match check_and_approve env.allowance amount_to_sell env.approveSubmitRes with
        | (.error _, evs1) => (.failed, evs0 ++ evs1)
        | (.ok (some h), evs1) =>
          match env.approvalWaitRes with
          | .error e => (.failed, evs0 ++ evs1 ++ [.approvalWaited (.error e)])
          | .ok rc =>
            let evs2 := evs0 ++ evs1 ++ [.approvalWaited (.ok rc)]
            match env.sellSubmitRes with
            | .error _ => (.failed, evs2)
            | .ok sh =>
              (.ok sh q.amount min_mon q.router (some h), evs2 ++ [.sellSubmitted sh])
        | (.ok none, evs1) =>
          match env.sellSubmitRes with
          | .error _ => (.failed, evs0 ++ evs1)
          | .ok sh =>
            (.ok sh q.amount min_mon q.router none, evs0 ++ evs1 ++ [.sellSubmitted sh])

/-- Whether an event is the sell (swap) submission. -/
def isSellSubmitEv : SellEv → Bool
  | .sellSubmitted _ => true
  | _ => false

/-- Whether an event is the approval submission. -/
def isApproveSubmitEv : SellEv → Bool
  | .approveSubmitted _ => true
  | _ => false

/-- Whether an event is an approval wait that obtained a receipt. -/
def isApprovalReceiptEv : SellEv → Bool
  | .approvalWaited (.ok _) => true
  | _ => false

/-- Whether an event is an approval wait whose receipt reported on-chain
success (status 1). -/
def isApprovalSuccessEv : SellEv → Bool
  | .approvalWaited (.ok rc) => rc.status == 1
  | _ => false

/-- Scan helper: every event satisfying q is preceded, strictly earlier in
the list, by some event satisfying p; seen records whether p was already
satisfied. -/
def eachPrecededByFrom (p q : SellEv → Bool) : Bool → List SellEv → Bool
  | _, [] => true
  | seen, e :: rest => (!q e || seen) && eachPrecededByFrom p q (seen || p e) rest

/-- Every q-event of the trace has an earlier p-event. -/
def eachPrecededBy (p q : SellEv → Bool) (evs : List SellEv) : Bool :=
  eachPrecededByFrom p q false evs

/-- Whether an event is an approval wait, receipt or timeout alike. -/
def isApprovalWaitEv : SellEv → Bool
  | .approvalWaited _ => true
  | _ => false

/-- Environment a buy trade runs against. -/
structure BuyEnv where
  quoteRes : Except Nat QuoteV
  buySubmitRes : Except Nat Nat
  deriving DecidableEq, Repr

/-- Result dictionary of execute_buy_trade, keeping the slippage the engine
was called with as the code does. -/
inductive BuyResult where
  | ok (tx_hash expected_out min_amount_out router : Nat) (slippage : ℚ)
  | failed
  deriving DecidableEq

/-- Embedding of TradeEngine.execute_buy_trade: quote, slippage bound, then
submit the buy; every raised exception is caught into the failure result. -/
def execute_buy_trade (env : BuyEnv) (slippage : ℚ) : BuyResult :=
  match env.quoteRes with
  | .error _ => .failed
  | .ok q =>
    match computeMinOut q.amount slippage with
    | .error _ => .failed
    | .ok min_tokens =>
      match env.buySubmitRes with
      | .error _ => .failed
      | .ok h => .ok h q.amount min_tokens q.router slippage

/-- The literal slippage argument the chat handlers pass to the trade
engine (slippage=5.0 at telegram_bot.py lines 403, 479 and 933). -/
def cmdTradeSlippage : ℚ := 5

/-- Trade-engine call made by cmd_buy once its validations pass. -/
def cmd_buy_tradeCall (env : BuyEnv) : BuyResult :=
  execute_buy_trade env cmdTradeSlippage

/-- Trade-engine call made by cmd_sell once its validations pass. -/
def cmd_sell_tradeCall (env : SellEnv) (amount : Nat) : SellResult × List SellEv :=
  execute_sell_trade env amount cmdTradeSlippage

/-- Trade-engine call made by handle_buy_callback. -/
def handle_buy_callback_tradeCall (env : BuyEnv) : BuyResult :=
  execute_buy_trade env cmdTradeSlippage

/-- Validation of the slippage argument of cmd_slippage: rejected outside
[0.1, 50], acknowledged inside. -/
def cmd_slippage_accepts (v : ℚ) : Bool :=
  if v < 1/10 ∨ 50 < v then false else true

/-- Database effect of cmd_slippage: after validating it only replies, so
the stored state is returned unchanged. -/
def cmd_slippage_dbEffect (db : Nat → Option UserRow) (v : ℚ) : Nat → Option UserRow :=
  db

/-- Database effect of handle_slippage_callback: it edits the chat message
and answers the callback, touching no stored state. -/
def handle_slippage_callback_dbEffect (db : Nat → Option UserRow) (choice : Nat) :
    Nat → Option UserRow :=
  db

/-- Sample password for concrete instances. -/
def pwFirst : String := "pw1"

/-- Second sample password, different from the first. -/
def pwSecond : String := "pw2"

/-- Sample user row with no password and a default wallet selected. -/
def sampleRowNoPw : UserRow :=
  { username := none
    first_name := none
    last_name := none
    default_wallet_id := some 2
    password := none
    settings := usersSettingsDefault }

/-- Sample user row with the first password stored. -/
def sampleRowPw : UserRow := { sampleRowNoPw with password := some pwFirst }

/-- Sample users table with one passwordless user. -/
def revealDbNoPw : Nat → Option UserRow :=
  fun u => if u = 1 then some sampleRowNoPw else none

/-- Sample users table with one user whose password is stored. -/
def revealDbPw : Nat → Option UserRow :=
  fun u => if u = 1 then some sampleRowPw else none

/-- Chain client whose receipt only appears at the 100th poll. -/
def chainLate : Nat → Option Receipt :=
  fun i => if i = 100 then some { status := 1, gasUsed := 21000, blockNumber := 5 } else none

/-- Chain client that answers every poll at once. -/
def chainImmediate : Nat → Option Receipt :=
  fun _ => some { status := 1, gasUsed := 2, blockNumber := 3 }

/-- Sell environment in which the allowance is insufficient, the approval
is mined but reverts (receipt status 0), and the swap then goes through. -/
def sellEnvCex : SellEnv :=
  { balance := 1000
    quoteRes := .ok { amount := 1000, router := 3 }
    allowance := 0
    approveSubmitRes := .ok 11
    approvalWaitRes := .ok { status := 0, gasUsed := 21000, blockNumber := 4 }
    sellSubmitRes := .ok 22 }

/-- Sell environment in which the allowance is insufficient and the
approval confirms successfully. -/
def sellEnvApprove : SellEnv :=
  { sellEnvCex with
    approvalWaitRes := .ok { status := 1, gasUsed := 21000, blockNumber := 4 } }

/-- Sell environment in which the allowance already covers the amount. -/
def sellEnvDirect : SellEnv := { sellEnvApprove with allowance := 1000 }

/-- Sample buy environment. -/
def buyEnvSample : BuyEnv :=
  { quoteRes := .ok { amount := 1000, router := 3 }, buySubmitRes := .ok 77 }

/-! ## Theorems -/

/-- C2: for every expectedOut, computeMinOut returns exactly
floor(expectedOut * (100 - slippagePercent) / 100) when the slippage is in
[0.1, 50] (so the result never exceeds expectedOut and never rounds up),
fails with InvalidSlippage outside that range, and maps expectedOut = 1000
with slippage = 5 to 950. -/
theorem c2_computeMinOut_floor_and_validation (e : Nat) (s : ℚ) :
    (1/10 ≤ s → s ≤ 50 →
      computeMinOut e s = .ok (Int.toNat ⌊(e : ℚ) * (100 - s) / 100⌋)
      ∧ ∀ m : Nat, computeMinOut e s = .ok m →
          m ≤ e ∧ (m : ℚ) ≤ (e : ℚ) * (100 - s) / 100)
    ∧ ((s < 1/10 ∨ 50 < s) → computeMinOut e s = .error .invalidSlippage)
    ∧ computeMinOut 1000 5 = .ok 950 := by
  refine ⟨?_, ?_, ?_⟩
  · intro hlo hhi
    have hcond : ¬ (s < 1/10 ∨ 50 < s) := by
      push_neg
      exact ⟨hlo, hhi⟩
    have heq : computeMinOut e s = .ok (Int.toNat ⌊(e : ℚ) * (100 - s) / 100⌋) := by
      unfold computeMinOut
      rw [if_neg hcond]
    refine ⟨heq, ?_⟩
    intro m hm
    rw [heq] at hm
    have hm2 : m = Int.toNat ⌊(e : ℚ) * (100 - s) / 100⌋ := by
      exact (Except.ok.injEq _ _).mp hm.symm
    have hx0 : (0 : ℚ) ≤ (e : ℚ) * (100 - s) / 100 := by
      have h1 : (0 : ℚ) ≤ (e : ℚ) := by positivity
      have h2 : (0 : ℚ) ≤ 100 - s := by linarith
      positivity
    have hfl0 : (0 : ℤ) ≤ ⌊(e : ℚ) * (100 - s) / 100⌋ := by
      exact Int.le_floor.mpr (by exact_mod_cast hx0)
    have hxe : (e : ℚ) * (100 - s) / 100 ≤ (e : ℚ) := by
      have h2 : (100 - s) / 100 ≤ 1 := by
        rw [div_le_one (by norm_num : (0:ℚ) < 100)]
        linarith
      calc (e : ℚ) * (100 - s) / 100 = (e : ℚ) * ((100 - s) / 100) := by ring
        _ ≤ (e : ℚ) * 1 := by
            exact mul_le_mul_of_nonneg_left h2 (by positivity)
        _ = (e : ℚ) := by ring
    constructor
    · rw [hm2]
      have hff : ⌊(e : ℚ) * (100 - s) / 100⌋ ≤ ⌊(e : ℚ)⌋ := Int.floor_le_floor hxe
      rw [Int.floor_natCast] at hff
      exact Int.toNat_le.mpr hff
    · rw [hm2]
      have hcast : ((Int.toNat ⌊(e : ℚ) * (100 - s) / 100⌋ : Nat) : ℚ)
          = ((⌊(e : ℚ) * (100 - s) / 100⌋ : ℤ) : ℚ) := by
        exact_mod_cast congrArg (fun z : ℤ => (z : ℚ)) (Int.toNat_of_nonneg hfl0)
      rw [hcast]
      exact Int.floor_le _
  · intro hcond
    unfold computeMinOut
    rw [if_pos hcond]
  · norm_num [computeMinOut]
    decide

/-- Witness for C2 at expectedOut = 1000, slippage = 5 (valid branch) and
slippage = 60 (invalid branch). -/
theorem c2_computeMinOut_witness :
    computeMinOut 1000 5 = .ok (Int.toNat ⌊(1000 : ℚ) * (100 - 5) / 100⌋)
    ∧ computeMinOut 1000 60 = .error .invalidSlippage :=
  ⟨((c2_computeMinOut_floor_and_validation 1000 5).1 (by norm_num) (by norm_num)).1,
   (c2_computeMinOut_floor_and_validation 1000 60).2.1 (Or.inr (by norm_num))⟩

/-- C3: decrypting the encryption of any secret under the same
WalletManager returns the secret unchanged, and decrypting any ciphertext
that is malformed or carries a different key (authentication mismatch)
fails with DecryptionError. -/
theorem c3_keyvault_roundtrip_and_auth (w : WalletManager) (secret : List Nat)
    (c : FernetCiphertext) (h : fernetKeyOf c ≠ some w.encryption_key) :
    w.decrypt_private_key (w.encrypt_private_key secret) = .ok secret
    ∧ w.decrypt_private_key c = .error .decryptionError := by
  constructor
  · simp [WalletManager.decrypt_private_key, WalletManager.encrypt_private_key,
      fernetDecrypt, fernetEncrypt]
  · cases c with
    | token k2 m =>
        have hk : k2 ≠ w.encryption_key := by
          intro he
          exact h (by simp [fernetKeyOf, he])
        simp [WalletManager.decrypt_private_key, fernetDecrypt, hk]
    | malformed r =>
        simp [WalletManager.decrypt_private_key, fernetDecrypt]

/-- Witness for C3 with a concrete manager, secret, and foreign-key
ciphertext. -/
theorem c3_keyvault_witness :
    (WalletManager.init (some 1) 0).decrypt_private_key
        ((WalletManager.init (some 1) 0).encrypt_private_key [7, 8]) = .ok [7, 8]
    ∧ (WalletManager.init (some 1) 0).decrypt_private_key (.token 2 [9])
        = .error .decryptionError :=
  c3_keyvault_roundtrip_and_auth (WalletManager.init (some 1) 0) [7, 8]
    (.token 2 [9]) (by decide)

/-- Helper: running vault calls never changes the manager state. -/
theorem vaultRun_snd (w : WalletManager) (ops : List VaultOp) :
    (vaultRun w ops).2 = w := by
  induction ops generalizing w with
  | nil => rfl
  | cons op ops ih =>
      cases op with
      | enc m => simpa [vaultRun, vaultStep] using ih w
      | dec c => simpa [vaultRun, vaultStep] using ih w

/-- Helper: every ciphertext output of a vault run is an encryption of some
message under the run's starting key. -/
theorem vaultRun_cipher_mem (w : WalletManager) (ops : List VaultOp)
    (c : FernetCiphertext) (h : VaultOut.cipher c ∈ (vaultRun w ops).1) :
    ∃ m, c = fernetEncrypt w.encryption_key m := by
  induction ops generalizing w with
  | nil => simp [vaultRun] at h
  | cons op ops ih =>
      cases op with
      | enc m =>
          simp only [vaultRun, vaultStep] at h
          rcases List.mem_cons.mp h with h1 | h1
          · exact ⟨m, VaultOut.cipher.inj h1⟩
          · exact ih w h1
      | dec cc =>
          simp only [vaultRun, vaultStep] at h
          rcases List.mem_cons.mp h with h1 | h1
          · exact absurd h1 (fun hc => VaultOut.noConfusion hc)
          · exact ih w h1

/-- C8: the key is fixed at construction (the supplied key when one is
given; in the bot, the key generated once at construction), no vault call
changes it or uses another, and every ciphertext a run of the bot's vault
produces decrypts successfully under that construction-time key. -/
theorem c8_single_construction_key (k g : Nat) (ops : List VaultOp)
    (c : FernetCiphertext)
    (h : VaultOut.cipher c ∈ (vaultRun (botWalletManager g) ops).1) :
    (WalletManager.init (some k) g).encryption_key = k
    ∧ (botWalletManager g).encryption_key = g
    ∧ (vaultRun (botWalletManager g) ops).2 = botWalletManager g
    ∧ ∃ m, c = fernetEncrypt g m
        ∧ (botWalletManager g).decrypt_private_key c = .ok m := by
  refine ⟨rfl, rfl, vaultRun_snd _ _, ?_⟩
  rcases vaultRun_cipher_mem _ _ _ h with ⟨m, hm⟩
  refine ⟨m, hm, ?_⟩
  rw [hm]
  simp [WalletManager.decrypt_private_key, fernetDecrypt, fernetEncrypt,
    botWalletManager, WalletManager.init]

/-- Witness for C8 on a two-call run of the bot's vault. -/
theorem c8_single_construction_key_witness :
    (WalletManager.init (some 4) 3).encryption_key = 4
    ∧ (botWalletManager 3).encryption_key = 3
    ∧ (vaultRun (botWalletManager 3) [.enc [5], .dec (.token 3 [5])]).2 = botWalletManager 3
    ∧ ∃ m, FernetCiphertext.token 3 [5] = fernetEncrypt 3 m
        ∧ (botWalletManager 3).decrypt_private_key (.token 3 [5]) = .ok m :=
  c8_single_construction_key 4 3 [.enc [5], .dec (.token 3 [5])]
    (.token 3 [5]) (by decide)

/-- C9: create_user (INSERT OR REPLACE) rewrites the whole row of an
existing user, so default_wallet_id and password become NULL and settings
its column default, whatever the old row held; cmd_start performs exactly
this call for every /start. -/
theorem c9_create_user_resets_row (db : Nat → Option UserRow) (user_id : Nat)
    (r : UserRow) (un fn ln : Option String) (h : db user_id = some r) :
    cmd_start_dbEffect db user_id un fn ln user_id
      = some { username := un
               first_name := fn
               last_name := ln
               default_wallet_id := none
               password := none
               settings := usersSettingsDefault }
    ∧ (∀ u, u ≠ user_id → cmd_start_dbEffect db user_id un fn ln u = db u) := by
  constructor
  · simp [cmd_start_dbEffect, create_user]
  · intro u hu
    simp [cmd_start_dbEffect, create_user, hu]

/-- Witness for C9: a /start over a user who had a default wallet and a
password loses both. -/
theorem c9_create_user_resets_row_witness :
    cmd_start_dbEffect revealDbPw 1 none none none 1
      = some { username := none
               first_name := none
               last_name := none
               default_wallet_id := none
               password := none
               settings := usersSettingsDefault }
    ∧ (∀ u, u ≠ 1 → cmd_start_dbEffect revealDbPw 1 none none none u = revealDbPw u) :=
  c9_create_user_resets_row revealDbPw 1 sampleRowPw none none none (by decide)

/-- C5: a failed quote is surfaced as the NoLiquidity-class result exactly
when its message carries a bonding-curve rejection marker, as the
ChainError-class result exactly otherwise, a successful quote as the
success result, and the two failure classes are distinct result shapes. -/
theorem c5_quote_failure_classes (m : List Char) (q : QuoteV) :
    (get_token_price (.err m) = .noLiquidity m ↔ isCurveRejectMsg m = true)
    ∧ (get_token_price (.err m) = .chainError m ↔ isCurveRejectMsg m = false)
    ∧ get_token_price (.ok q) = .success q.amount q.router
    ∧ (∀ m1 m2 : List Char, PriceResult.noLiquidity m1 ≠ PriceResult.chainError m2) := by
  refine ⟨?_, ?_, rfl, ?_⟩
  · unfold get_token_price
    cases hc : isCurveRejectMsg m <;> simp [hc]
  · unfold get_token_price
    cases hc : isCurveRejectMsg m <;> simp [hc]
  · intro m1 m2 hc
    exact PriceResult.noConfusion hc

/-- C6: import strips an optional 0x and succeeds exactly when the
remainder is 64 hexadecimal characters, failing with InvalidKeyFormat on
everything else; the address is the same derivation wallet creation uses on
that secret, and the all-a secret imports to the one address the derivation
fixes for it. -/
theorem c6_import_requires_64_hex (derive : List Char → Nat) (w : WalletManager)
    (pk : List Char) :
    ((strip0x pk).length = 64 ∧ (strip0x pk).all isHexChar = true →
       import_wallet_from_private_key derive w pk
         = .ok { address := derive (strip0x pk)
                 encrypted_private_key :=
                   w.encrypt_private_key ((strip0x pk).map Char.toNat) }
       ∧ derive (strip0x pk) = (create_wallet derive w (strip0x pk)).address)
    ∧ (¬ ((strip0x pk).length = 64 ∧ (strip0x pk).all isHexChar = true) →
       import_wallet_from_private_key derive w pk = .error .invalidKeyFormat)
    ∧ import_wallet_from_private_key derive w aSecret64
       = .ok { address := derive aSecret64
               encrypted_private_key :=
                 w.encrypt_private_key (aSecret64.map Char.toNat) } := by
  refine ⟨?_, ?_, ?_⟩
  · rintro ⟨h1, h2⟩
    unfold import_wallet_from_private_key accountFromKey
    simp [h1, h2, create_wallet]
  · intro hnot
    unfold import_wallet_from_private_key accountFromKey
    by_cases hl : (strip0x pk).length = 64
    · have hhex : (strip0x pk).all isHexChar = false := by
        cases hx : (strip0x pk).all isHexChar with
        | false => rfl
        | true => exact absurd ⟨hl, hx⟩ hnot
      simp [hl, hhex]
    · simp [hl]
  · have h0 : strip0x aSecret64 = aSecret64 := by decide
    have h1 : aSecret64.length = 64 := by decide
    have h2 : aSecret64.all isHexChar = true := by decide
    unfold import_wallet_from_private_key accountFromKey
    simp [h0, h1, h2]

/-- Witness for C6: the all-a secret imports with its derived address, and
an input that is not 64 hexadecimal characters after the strip fails. -/
theorem c6_import_requires_64_hex_witness :
    import_wallet_from_private_key (fun _ => 9) (WalletManager.init (some 1) 0) aSecret64
      = .ok { address := (fun _ => 9) aSecret64
              encrypted_private_key :=
                (WalletManager.init (some 1) 0).encrypt_private_key
                  (aSecret64.map Char.toNat) }
    ∧ import_wallet_from_private_key (fun _ => 9) (WalletManager.init (some 1) 0) []
      = .error .invalidKeyFormat :=
  ⟨(c6_import_requires_64_hex (fun _ => 9) (WalletManager.init (some 1) 0) aSecret64).2.2,
   (c6_import_requires_64_hex (fun _ => 9) (WalletManager.init (some 1) 0) []).2.1
     (by decide)⟩

/-- C10: the buy and sell handlers and the buy callback always call the
trade engine with the literal slippage 5; a successful handler buy carries
slippage 5 and the minimum-output bound computed at 5; cmd_slippage
validates [0.1, 50] and acknowledges, and neither it nor the slippage
callback writes any stored state, so the chosen value reaches no trade. -/
theorem c10_handlers_use_constant_slippage (env : BuyEnv) (senv : SellEnv)
    (amt : Nat) (db : Nat → Option UserRow) (v : ℚ) (choice : Nat) :
    cmd_buy_tradeCall env = execute_buy_trade env 5
    ∧ cmd_sell_tradeCall senv amt = execute_sell_trade senv amt 5
    ∧ handle_buy_callback_tradeCall env = execute_buy_trade env 5
    ∧ cmdTradeSlippage = 5
    ∧ cmd_slippage_dbEffect db v = db
    ∧ handle_slippage_callback_dbEffect db choice = db
    ∧ (∀ h e m r s, cmd_buy_tradeCall env = .ok h e m r s →
        s = 5 ∧ computeMinOut e 5 = .ok m)
    ∧ (1/10 ≤ v → v ≤ 50 → cmd_slippage_accepts v = true) := by
  refine ⟨rfl, rfl, rfl, rfl, rfl, rfl, ?_, ?_⟩
  · intro h e m r s hok
    rw [show cmd_buy_tradeCall env = execute_buy_trade env 5 from rfl] at hok
    cases hq : env.quoteRes with
    | error x =>
        simp only [execute_buy_trade, hq] at hok
        exact BuyResult.noConfusion hok
    | ok q =>
        cases hm : computeMinOut q.amount 5 with
        | error x =>
            simp only [execute_buy_trade, hq, hm] at hok
            exact BuyResult.noConfusion hok
        | ok mt =>
            cases hb : env.buySubmitRes with
            | error x =>
                simp only [execute_buy_trade, hq, hm, hb] at hok
                exact BuyResult.noConfusion hok
            | ok hh =>
                simp only [execute_buy_trade, hq, hm, hb] at hok
                obtain ⟨hh1, he1, hm1, hr1, hs1⟩ := BuyResult.ok.inj hok
                refine ⟨hs1.symm, ?_⟩
                rw [← he1, ← hm1]
                exact hm
  · intro h1 h2
    unfold cmd_slippage_accepts
    rw [if_neg]
    push_neg
    exact ⟨h1, h2⟩

/-- Witness for C10: a concrete handler buy returns bound 950 at slippage 5
and the command accepts the user's 3 percent without storing it. -/
theorem c10_handlers_use_constant_slippage_witness :
    ((5 : ℚ) = 5 ∧ computeMinOut 1000 5 = .ok 950)
    ∧ cmd_slippage_accepts 3 = true := by
  have hmin : computeMinOut 1000 5 = .ok 950 := by
    norm_num [computeMinOut]
    decide
  have hok : cmd_buy_tradeCall buyEnvSample = .ok 77 1000 950 3 5 := by
    simp only [cmd_buy_tradeCall, execute_buy_trade, cmdTradeSlippage, buyEnvSample, hmin]
  exact ⟨(c10_handlers_use_constant_slippage buyEnvSample sellEnvDirect 0
            revealDbPw 3 0).2.2.2.2.2.2.1 77 1000 950 3 5 hok,
         (c10_handlers_use_constant_slippage buyEnvSample sellEnvDirect 0
            revealDbPw 3 0).2.2.2.2.2.2.2 (by norm_num) (by norm_num)⟩

/-- Helper: the poll loop times out when no poll within the fuel window
yields a receipt. -/
theorem sdkWaitLoop_timeout (chain : Nat → Option Receipt) :
    ∀ (fuel i : Nat), (∀ j, j < fuel → chain (i + j) = none) →
      sdkWaitLoop chain i fuel = .error .confirmationTimeout := by
  intro fuel
  induction fuel with
  | zero => intro i h; rfl
  | succ f ih =>
      intro i h
      have h0 : chain i = none := by
        have hx := h 0 (Nat.succ_pos f)
        simpa using hx
      have hrec := ih (i + 1) (fun j hj => by
        have hx := h (j + 1) (Nat.succ_lt_succ hj)
        have hy : i + (j + 1) = i + 1 + j := by omega
        rw [hy] at hx
        exact hx)
      simp [sdkWaitLoop, h0, hrec]

/-- Helper: the poll loop returns the first receipt that appears within the
fuel window. -/
theorem sdkWaitLoop_found (chain : Nat → Option Receipt) :
    ∀ (fuel i k : Nat) (r : Receipt), k < fuel → chain (i + k) = some r →
      (∀ j, j < k → chain (i + j) = none) → sdkWaitLoop chain i fuel = .ok r := by
  intro fuel
  induction fuel with
  | zero => intro i k r hk _ _; exact absurd hk (Nat.not_lt_zero k)
  | succ f ih =>
      intro i k r hk hsome hnone
      cases k with
      | zero =>
          have h0 : chain i = some r := by simpa using hsome
          simp [sdkWaitLoop, h0]
      | succ k2 =>
          have h0 : chain i = none := by
            have hx := hnone 0 (Nat.succ_pos k2)
            simpa using hx
          have hs2 : chain (i + 1 + k2) = some r := by
            have hy : i + (k2 + 1) = i + 1 + k2 := by omega
            rw [hy] at hsome
            exact hsome
          have hrec := ih (i + 1) k2 r (Nat.lt_of_succ_lt_succ hk) hs2
            (fun j hj => by
              have hx := hnone (j + 1) (Nat.succ_lt_succ hj)
              have hy : i + (j + 1) = i + 1 + j := by omega
              rw [hy] at hx
              exact hx)
          simp [sdkWaitLoop, h0, hrec]

/-- C4 counterexample: a receipt that only appears at the 100th poll is
found when a 300-second timeout is passed but missed when the caller
supplies no timeout, and the recorded default is not 300 — so the default
confirmation timeout used is not 300 seconds. -/
theorem c4_counterexample_default_not_300 :
    TradeEngine_wait_for_transaction chainLate none = .failed .confirmationTimeout
    ∧ TradeEngine_wait_for_transaction chainLate (some 300) = .ok 1 21000 5
    ∧ tradeEngineWaitDefaultTimeout ≠ 300 := by
  refine ⟨?_, ?_, by decide⟩ <;> decide

/-- C4 as amended: the waiter polls the chain client for a receipt,
returning the first receipt found and failing with ConfirmationTimeout when
none appears before the timeout elapses; when the caller supplies no
timeout the default used is 60 seconds, while the configured tx_timeout
setting is 300 seconds but is not what the waiter defaults to. -/
theorem c4_wait_poll_and_default_60 (chain : Nat → Option Receipt) (t : Nat) :
    ((∀ i, i < t → chain i = none) →
      TradeEngine_wait_for_transaction chain (some t) = .failed .confirmationTimeout)
    ∧ (∀ k r, k < t → chain k = some r → (∀ j, j < k → chain j = none) →
      TradeEngine_wait_for_transaction chain (some t)
        = .ok r.status r.gasUsed r.blockNumber)
    ∧ TradeEngine_wait_for_transaction chain none
        = TradeEngine_wait_for_transaction chain (some 60)
    ∧ tradeEngineWaitDefaultTimeout = 60
    ∧ botSettingsDefault.tx_timeout = 300 := by
  refine ⟨?_, ?_, rfl, rfl, rfl⟩
  · intro hnone
    have hloop := sdkWaitLoop_timeout chain t 0 (fun j hj => by simpa using hnone j hj)
    simp [TradeEngine_wait_for_transaction, sdk_wait_for_transaction, hloop]
  · intro k r hk hsome hnone
    have hloop := sdkWaitLoop_found chain t 0 k r hk (by simpa using hsome)
      (fun j hj => by simpa using hnone j hj)
    simp [TradeEngine_wait_for_transaction, sdk_wait_for_transaction, hloop]

/-- Witness for C4 as amended: a silent chain times out at timeout 2, and
an immediate receipt is returned at timeout 1. -/
theorem c4_wait_poll_and_default_60_witness :
    TradeEngine_wait_for_transaction (fun _ => none) (some 2)
      = .failed .confirmationTimeout
    ∧ TradeEngine_wait_for_transaction chainImmediate (some 1) = .ok 1 2 3 :=
  ⟨(c4_wait_poll_and_default_60 (fun _ => none) 2).1 (fun i _ => rfl),
   (c4_wait_poll_and_default_60 chainImmediate 1).2.1 0
     { status := 1, gasUsed := 2, blockNumber := 3 } (by decide) rfl
     (fun j hj => absurd hj (Nat.not_lt_zero j))⟩

/-- C7 counterexample: for a user with no database record at all, the
supplied password is revealed against but not stored (the UPDATE matches no
row), so a later different password also reveals instead of mismatching. -/
theorem c7_counterexample_no_row_not_stored :
    (process_password (fun _ => none) 1 pwFirst).2 = .revealed
    ∧ (process_password (fun _ => none) 1 pwFirst).1 1 = none
    ∧ (process_password ((process_password (fun _ => none) 1 pwFirst).1) 1 pwSecond).2
        = .revealed := by
  refine ⟨rfl, ?_, ?_⟩ <;> simp [process_password, set_user_password]

/-- C7 as amended: on password input, a user whose record has no password
gets the supplied value stored and the secrets revealed; a user with no
record gets the secrets revealed with nothing stored; a user with a stored
password gets the secrets exactly on equality and PasswordMismatch with
unchanged state otherwise. -/
theorem c7_password_gate (db : Nat → Option UserRow) (uid : Nat) (pw : String) :
    (∀ r : UserRow, db uid = some r → r.password = none →
        (process_password db uid pw).2 = .revealed
        ∧ (process_password db uid pw).1 uid = some { r with password := some pw })
    ∧ (db uid = none →
        (process_password db uid pw).2 = .revealed
        ∧ ∀ u, (process_password db uid pw).1 u = db u)
    ∧ (∀ r sp, db uid = some r → r.password = some sp →
        (sp = pw → process_password db uid pw = (db, .revealed))
        ∧ (sp ≠ pw → process_password db uid pw = (db, .mismatch))) := by
  refine ⟨?_, ?_, ?_⟩
  · intro r hr hp
    constructor
    · simp [process_password, hr, hp]
    · simp [process_password, set_user_password, hr, hp]
  · intro hr
    constructor
    · simp [process_password, hr]
    · intro u
      by_cases hu : u = uid
      · subst hu
        simp [process_password, set_user_password, hr]
      · simp [process_password, set_user_password, hr, hu]
  · intro r sp hr hp
    constructor
    · intro he
      simp [process_password, hr, hp, he]
    · intro hne
      simp [process_password, hr, hp, hne]

/-- Witness for C7 as amended: first use on a passwordless record stores
the password and reveals; a wrong password against a stored one
mismatches. -/
theorem c7_password_gate_witness :
    ((process_password revealDbNoPw 1 pwFirst).2 = .revealed
      ∧ (process_password revealDbNoPw 1 pwFirst).1 1
          = some { sampleRowNoPw with password := some pwFirst })
    ∧ process_password revealDbPw 1 pwSecond = (revealDbPw, .mismatch) :=
  ⟨(c7_password_gate revealDbNoPw 1 pwFirst).1 sampleRowNoPw (by decide) rfl,
   ((c7_password_gate revealDbPw 1 pwSecond).2.2 sampleRowPw pwFirst (by decide) rfl).2
     (by decide)⟩

/-- C1 counterexample: with allowance 0 < amountIn 500, the approval is
submitted and awaited, the confirmation receipt reports on-chain failure
(status 0), and the swap is submitted anyway — so "reported successful
before the swap is submitted" fails on the code. -/
theorem c1_counterexample_reverted_approval_swaps :
    sellEnvCex.allowance < 500
    ∧ (execute_sell_trade sellEnvCex 500 5).2.any isSellSubmitEv = true
    ∧ eachPrecededBy isApprovalSuccessEv isSellSubmitEv
        (execute_sell_trade sellEnvCex 500 5).2 = false := by
  have hmin : computeMinOut 1000 5 = .ok 950 := by
    norm_num [computeMinOut]
    decide
  have htr : (execute_sell_trade sellEnvCex 500 5).2
      = [.balanceChecked 1000, .quoteRequested, .approveSubmitted 11,
         .approvalWaited (.ok { status := 0, gasUsed := 21000, blockNumber := 4 }),
         .sellSubmitted 22] := by
    simp [execute_sell_trade, check_and_approve, sellEnvCex, hmin]
  refine ⟨by decide, ?_, ?_⟩ <;> rw [htr] <;> decide

/-- C1 as amended: for every sell, when the allowance is below amountIn the
swap submission is preceded by an approval submission and by an obtained
approval confirmation receipt (an approval submission failure or
confirmation timeout aborts before any swap), though the receipt's success
status is not checked; when the allowance covers amountIn, no approval is
submitted or awaited and a successful result carries no approval hash. -/
theorem c1_sell_approval_before_swap (env : SellEnv) (amt : Nat) (slp : ℚ) :
    (env.allowance < amt →
        eachPrecededBy isApproveSubmitEv isSellSubmitEv
          (execute_sell_trade env amt slp).2 = true
        ∧ eachPrecededBy isApprovalReceiptEv isSellSubmitEv
            (execute_sell_trade env amt slp).2 = true)
    ∧ (amt ≤ env.allowance →
        (execute_sell_trade env amt slp).2.any isApproveSubmitEv = false
        ∧ (execute_sell_trade env amt slp).2.any isApprovalWaitEv = false
        ∧ ∀ h e m r a, (execute_sell_trade env amt slp).1 = .ok h e m r a →
            a = none) := by
  obtain ⟨b, qr, al, apr, aw, sr⟩ := env
  constructor
  · intro hlt
    by_cases hb : b = 0
    · subst hb
      simp [execute_sell_trade, eachPrecededBy, eachPrecededByFrom,
        isApproveSubmitEv, isSellSubmitEv, isApprovalReceiptEv]
    · cases qr with
      | error ec =>
          simp [execute_sell_trade, hb, eachPrecededBy, eachPrecededByFrom,
            isApproveSubmitEv, isSellSubmitEv, isApprovalReceiptEv]
      | ok q =>
          cases hm : computeMinOut q.amount slp with
          | error te =>
              simp [execute_sell_trade, hb, hm, eachPrecededBy, eachPrecededByFrom,
                isApproveSubmitEv, isSellSubmitEv, isApprovalReceiptEv]
          | ok mv =>
              cases apr with
              | error ae =>
                  simp [execute_sell_trade, check_and_approve, hb, hm, hlt,
                    eachPrecededBy, eachPrecededByFrom,
                    isApproveSubmitEv, isSellSubmitEv, isApprovalReceiptEv]
              | ok ah =>
                  cases aw with
                  | error we =>
                      simp [execute_sell_trade, check_and_approve, hb, hm, hlt,
                        eachPrecededBy, eachPrecededByFrom,
                        isApproveSubmitEv, isSellSubmitEv, isApprovalReceiptEv]
                  | ok rc =>
                      cases sr with
                      | error se =>
                          simp [execute_sell_trade, check_and_approve, hb, hm, hlt,
                            eachPrecededBy, eachPrecededByFrom,
                            isApproveSubmitEv, isSellSubmitEv, isApprovalReceiptEv]
                      | ok sh =>
                          simp [execute_sell_trade, check_and_approve, hb, hm, hlt,
                            eachPrecededBy, eachPrecededByFrom,
                            isApproveSubmitEv, isSellSubmitEv, isApprovalReceiptEv]
  · intro hge
    have hnlt : ¬ (al < amt) := Nat.not_lt.mpr hge
    by_cases hb : b = 0
    · subst hb
      refine ⟨by simp [execute_sell_trade, isApproveSubmitEv],
              by simp [execute_sell_trade, isApprovalWaitEv], ?_⟩
      intro h e m r a hok
      simp [execute_sell_trade] at hok
    · cases qr with
      | error ec =>
          refine ⟨by simp [execute_sell_trade, hb, isApproveSubmitEv],
                  by simp [execute_sell_trade, hb, isApprovalWaitEv], ?_⟩
          intro h e m r a hok
          simp [execute_sell_trade, hb] at hok
      | ok q =>
          cases hm : computeMinOut q.amount slp with
          | error te =>
              refine ⟨by simp [execute_sell_trade, hb, hm, isApproveSubmitEv],
                      by simp [execute_sell_trade, hb, hm, isApprovalWaitEv], ?_⟩
              intro h e m r a hok
              simp [execute_sell_trade, hb, hm] at hok
          | ok mv =>
              cases sr with
              | error se =>
                  refine ⟨by simp [execute_sell_trade, check_and_approve, hb, hm,
                            hnlt, isApproveSubmitEv],
                          by simp [execute_sell_trade, check_and_approve, hb, hm,
                            hnlt, isApprovalWaitEv], ?_⟩
                  intro h e m r a hok
                  simp [execute_sell_trade, check_and_approve, hb, hm, hnlt] at hok
              | ok sh =>
                  refine ⟨by simp [execute_sell_trade, check_and_approve, hb, hm,
                            hnlt, isApproveSubmitEv],
                          by simp [execute_sell_trade, check_and_approve, hb, hm,
                            hnlt, isApprovalWaitEv], ?_⟩
                  intro h e m r a hok
                  simp [execute_sell_trade, check_and_approve, hb, hm, hnlt] at hok
                  exact hok.2.2.2.2.symm

/-- Witness for C1 as amended: an insufficient-allowance sell orders the
approval before the swap, and a covered-allowance sell touches no
approval. -/
theorem c1_sell_approval_before_swap_witness :
    (eachPrecededBy isApproveSubmitEv isSellSubmitEv
        (execute_sell_trade sellEnvApprove 500 5).2 = true
      ∧ eachPrecededBy isApprovalReceiptEv isSellSubmitEv
          (execute_sell_trade sellEnvApprove 500 5).2 = true)
    ∧ ((execute_sell_trade sellEnvDirect 500 5).2.any isApproveSubmitEv = false
      ∧ (execute_sell_trade sellEnvDirect 500 5).2.any isApprovalWaitEv = false
      ∧ ∀ h e m r a, (execute_sell_trade sellEnvDirect 500 5).1 = .ok h e m r a →
          a = none) :=
  ⟨(c1_sell_approval_before_swap sellEnvApprove 500 5).1 (by decide),
   (c1_sell_approval_before_swap sellEnvDirect 500 5).2 (by decide)⟩
